import Mathlib

/-!
Verification development for the libvirt network resource
(src/libvirt/resource_libvirt_network.go): the address planner
(setNetworkIP), the definition builder (the pure portion of
resourceLibvirtNetworkCreate together with setDhcpByCIDRAdressesSubnets),
the drift-reader address projection (resourceLibvirtNetworkRead), the
delete flow (resourceLibvirtNetworkDelete) and the two polling refresh
functions (waitForNetworkActive, waitForNetworkDestroyed).

IP addresses are embedded as natural numbers below 2 ^ bits (bits is 32
for IPv4 and 128 for IPv6), read from the byte-slice representation in
big-endian order, so the Go per-byte operations on the last slice element
become arithmetic on the value modulo 256.
-/

deriving instance DecidableEq for Except

/-- Network mode constant netModeIsolated (source line 17). -/
def netModeIsolated : String := "none"

/-- Network mode constant netModeNat (source line 18). -/
def netModeNat : String := "nat"

/-- Network mode constant netModeRoute (source line 19). -/
def netModeRoute : String := "route"

/-- Network mode constant netModeBridge (source line 20). -/
def netModeBridge : String := "bridge"

/-- ASCII lowercase mapping of one character. -/
def toLowerChar (c : Char) : Char :=
  if 65 ≤ c.toNat ∧ c.toNat ≤ 90 then Char.ofNat (c.toNat + 32) else c

/-- Go strings.ToLower as applied to the mode attribute at source line
230, restricted to the ASCII case mapping (mode strings are ASCII). -/
def goToLower (s : String) : String :=
  String.mk (s.data.map toLowerChar)

/-- A parsed CIDR block as returned by net.ParseCIDR on a well-formed
input string: the parsed address (which may still carry host bits), the
mask ones count, and the mask width in bits (32 for IPv4, 128 for IPv6).
Malformed input strings, which ParseCIDR rejects at source line 507, are
outside this structure. -/
structure IPNet where
  ip : Nat
  ones : Nat
  bits : Nat
  deriving DecidableEq

/-- Value of the address with the host bits cleared, as computed by
addr.Mask(net.CIDRMask(ones, bits)). -/
def maskAddr (ip ones bits : Nat) : Nat :=
  ip / 2 ^ (bits - ones) * 2 ^ (bits - ones)

/-- Broadcast (last) address of the block: the network address with all
host bits set. -/
def broadcastAddr (ip ones bits : Nat) : Nat :=
  maskAddr ip ones bits + (2 ^ (bits - ones) - 1)

/-- Go statement ip[len(ip)-1]++ on a byte-slice address: the last byte
is incremented modulo 256 and no carry propagates to earlier bytes. -/
def incLastByte (x : Nat) : Nat :=
  x - x % 256 + (x % 256 + 1) % 256

/-- Go statement ip[len(ip)-1]-- on a byte-slice address: the last byte
is decremented modulo 256 and no borrow propagates to earlier bytes. -/
def decLastByte (x : Nat) : Nat :=
  x - x % 256 + (x % 256 + 255) % 256

/-- Modelled from the spec: networkRange is repository code whose file is
not included under src/ (only its caller at source line 523 is). Per
spec section 4.1 and the comment at source lines 521-522 it returns the
first (network) and last (broadcast) addresses of the block. -/
def networkRange (n : IPNet) : Nat × Nat :=
  (maskAddr n.ip n.ones n.bits, broadcastAddr n.ip n.ones n.bits)

/-- libvirtxml.NetworkDHCP: the list of DHCP ranges, each a start/end
address pair. -/
structure NetworkDHCP where
  ranges : List (Nat × Nat)
  deriving DecidableEq

/-- libvirtxml.NetworkIP: one ip block of the network definition. The
source field Prefix is named prefLen here because its original name is
reserved in Lean. -/
structure NetworkIP where
  address : Nat
  prefLen : Nat
  family : String
  dhcp : Option NetworkDHCP
  deriving DecidableEq

/-- The address planner setNetworkIP (source lines 506-548), applied to
an already-parsed CIDR block. The available-address count is the literal
Go expression 2 ^ bits - 2 ^ ones, in which the caret is bitwise XOR and
binds like subtraction, left to right: ((2 XOR bits) - 2) XOR ones. -/
def setNetworkIP (n : IPNet) : Except String (NetworkIP × NetworkDHCP) :=
  if Nat.xor (Nat.xor 2 n.bits - 2) n.ones < 4 then
    Except.error ("Netmask seems to be too strict: only " ++
      toString ((Nat.xor (Nat.xor 2 n.bits - 2) n.ones : Int) - 3) ++
      " IPs available (" ++ (if n.bits = 128 then "ipv6" else "ipv4") ++ ")")
  else
    Except.ok
      ({ address := incLastByte (networkRange n).1
       , prefLen := n.ones
       , family := if n.bits = 128 then "ipv6" else "ipv4"
       , dhcp := none },
       { ranges := [(incLastByte (incLastByte (networkRange n).1),
                     decLastByte (networkRange n).2)] })

/-- Follows the words of the spec (sections 4.1 and 8), not the source:
the usable-address count of a CIDR block is the mathematical
2 ^ (bits - ones) minus the network and broadcast addresses. -/
def specUsableAddresses (ones bits : Nat) : Nat :=
  2 ^ (bits - ones) - 2

/-- Drift-reader address projection (resourceLibvirtNetworkRead, source
lines 370-386): the stored interface address is masked down with
net.CIDRMask(prefLen, bits) and reported together with the mask length.
The reported CIDR string is the dotted form of exactly this pair, so two
entries print to the same string if and only if the pairs are equal. -/
def readAddressEntry (e : NetworkIP) (bits : Nat) : Nat × Nat :=
  (maskAddr e.address e.prefLen bits, e.prefLen)

/-- One dns forwarder input block (schema lines 97-117). The addr field
models d.GetOk on the address attribute together with the net.ParseIP
verdict at source lines 254-259: none means the attribute is unset, some
none means it is set but is not a valid IP literal, and some (some s)
means it parses and prints back as s. -/
structure DNSForwarderIn where
  addr : Option (Option String)
  domain : Option String
  deriving DecidableEq

/-- The user-supplied resource data consumed by the create path: the
typed values behind d.Get and d.GetOk for the fields the builder reads. -/
structure NetworkSpec where
  name : String
  domain : Option String
  dnsLocalOnly : Bool
  mode : String
  bridge : String
  addresses : List IPNet
  dhcpEnabled : Option Bool
  dnsForwarders : List DNSForwarderIn
  deriving DecidableEq

/-- libvirtxml.NetworkBridge as set at source lines 223-226. -/
structure NetworkBridge where
  name : String
  stp : String
  deriving DecidableEq

/-- libvirtxml.NetworkForward: the mode string plus the optional NAT
sub-element (nil by default, explicitly nil for routed networks). -/
structure NetworkForward where
  mode : String
  nat : Option Unit
  deriving DecidableEq

/-- libvirtxml.NetworkDomain as set at source lines 207-215: LocalOnly
is the two-valued wire string, "yes" when requested and empty otherwise. -/
structure NetworkDomain where
  name : String
  localOnly : String
  deriving DecidableEq

/-- libvirtxml.NetworkDNSForwarder as built at source lines 252-264. -/
structure NetworkDNSForwarder where
  addr : String
  domain : String
  deriving DecidableEq

/-- libvirtxml.NetworkDNS (source lines 247-266). -/
structure NetworkDNS where
  forwarders : List NetworkDNSForwarder
  deriving DecidableEq

/-- libvirtxml.Network restricted to the fields the source writes. -/
structure NetworkDef where
  name : String
  domain : Option NetworkDomain
  bridge : Option NetworkBridge
  forward : Option NetworkForward
  ips : List NetworkIP
  dns : Option NetworkDNS
  deriving DecidableEq

/-- Modelled from the spec: newNetworkDef is repository code whose file
is not included under src/ (only its caller at source line 203 is). It
yields the empty network-definition skeleton that the builder then
fills; every field the claims observe is overwritten by the builder. -/
def newNetworkDef : NetworkDef :=
  { name := "", domain := none, bridge := none, forward := none, ips := [], dns := none }

/-- Value of d.Get("dhcp.0.enabled") at source line 491: the user
setting when present, otherwise the Default true declared for the
enabled attribute in the schema (source lines 121-136). -/
def effDhcpEnabled (spec : NetworkSpec) : Bool :=
  spec.dhcpEnabled.getD true

/-- Loop body of setDhcpByCIDRAdressesSubnets (source lines 485-500):
each address entry is planned by setNetworkIP, the first planner error
aborts, and the DHCP field of the produced block is the planned range
when dhcp is enabled and is explicitly nil otherwise. -/
def planEntries (dhcpOn : Bool) : List IPNet → Except String (List NetworkIP)
  | [] => Except.ok []
  | a :: rest =>
    match setNetworkIP a with
    | Except.error e => Except.error e
    | Except.ok (dni, dhcp) =>
      match planEntries dhcpOn rest with
      | Except.error e => Except.error e
      | Except.ok l =>
        Except.ok ({ dni with dhcp := if dhcpOn then some dhcp else none } :: l)

/-- setDhcpByCIDRAdressesSubnets (source lines 482-504). d.GetOk on the
addresses list reports false for an unset or empty list, in which case
the definition is left untouched. -/
def setDhcpByCIDRAdressesSubnets (spec : NetworkSpec) (networkDef : NetworkDef) :
    Except String NetworkDef :=
  if spec.addresses = [] then Except.ok networkDef
  else
    match planEntries (effDhcpEnabled spec) spec.addresses with
    | Except.error e => Except.error e
    | Except.ok l => Except.ok { networkDef with ips := l }

/-- Dns forwarder assembly (source lines 246-265): an address set to a
string that is not an IP literal aborts the build; unset address or
domain attributes pass through as empty strings. -/
def buildDNSForwarders : List DNSForwarderIn → Except String (List NetworkDNSForwarder)
  | [] => Except.ok []
  | f :: rest =>
    match f.addr with
    | some none => Except.error "Could not parse address"
    | some (some s) =>
      match buildDNSForwarders rest with
      | Except.error e => Except.error e
      | Except.ok l => Except.ok ({ addr := s, domain := f.domain.getD "" } :: l)
    | none =>
      match buildDNSForwarders rest with
      | Except.error e => Except.error e
      | Except.ok l => Except.ok ({ addr := "", domain := f.domain.getD "" } :: l)

/-- Distinct failure exits of the definition-building portion of
resourceLibvirtNetworkCreate, one constructor per fmt.Errorf site. -/
inductive BuildError where
  | dhcpFailed (msg : String)
  | parseAddressFailed (msg : String)
  | missingBridge
  | unsupportedMode (mode : String)
  deriving DecidableEq

/-- State of the network definition after source lines 203-231: name,
optional domain block (LocalOnly serialized as "yes" or empty), bridge
block with STP on, and the forward block holding the lowercased mode
with the NAT sub-element nil by default. -/
def baseNetworkDef (spec : NetworkSpec) : NetworkDef :=
  { newNetworkDef with
    name := spec.name
    domain :=
      match spec.domain with
      | some dom => some ⟨dom, if spec.dnsLocalOnly then "yes" else ""⟩
      | none => none
    bridge := some { name := spec.bridge, stp := "on" }
    forward := some { mode := goToLower spec.mode, nat := none } }

/-- The mode-specific adjustment of the forward block performed inside
the recognized branch at source lines 234-240: isolated drops the
forward block entirely, route clears the NAT sub-element (already nil),
nat keeps the block as built. -/
def preDhcpDef (spec : NetworkSpec) : NetworkDef :=
  if goToLower spec.mode = netModeIsolated then
    { baseNetworkDef spec with forward := none }
  else if goToLower spec.mode = netModeRoute then
    { baseNetworkDef spec with
      forward := some { mode := goToLower spec.mode, nat := none } }
  else baseNetworkDef spec

/-- The definition-building portion of resourceLibvirtNetworkCreate
(source lines 203-277), everything that runs before the definition is
serialized and submitted to libvirt at lines 280-299. A build error
returns before any external call, so nothing is submitted on failure.
The bridge branch demands a bridge name and drops the forward block
without ever reaching the dhcp loop. -/
def buildNetworkDef (spec : NetworkSpec) : Except BuildError NetworkDef :=
  if goToLower spec.mode = netModeIsolated ∨ goToLower spec.mode = netModeNat ∨
      goToLower spec.mode = netModeRoute then
    match setDhcpByCIDRAdressesSubnets spec (preDhcpDef spec) with
    | Except.error e => Except.error (BuildError.dhcpFailed e)
    | Except.ok nd5 =>
      if spec.dnsForwarders = [] then Except.ok nd5
      else
        match buildDNSForwarders spec.dnsForwarders with
        | Except.error e => Except.error (BuildError.parseAddressFailed e)
        | Except.ok fs => Except.ok { nd5 with dns := some { forwarders := fs } }
  else if goToLower spec.mode = netModeBridge then
    if spec.bridge = "" then Except.error BuildError.missingBridge
    else Except.ok { baseNetworkDef spec with forward := none }
  else Except.error (BuildError.unsupportedMode (goToLower spec.mode))

/-- Number of setNetworkIP invocations the dhcp loop performs on a list
of address entries: each entry is planned in order and a planner error
stops the loop at that entry. -/
def countPlanned : List IPNet → Nat
  | [] => 0
  | a :: rest => 1 + (if (setNetworkIP a).isOk then countPlanned rest else 0)

/-- Number of setNetworkIP invocations performed by buildNetworkDef:
the dhcp loop runs only in the recognized non-bridge modes (source lines
232-245); the bridge and unsupported-mode branches never reach it. -/
def plannerCallCount (spec : NetworkSpec) : Nat :=
  if goToLower spec.mode = netModeIsolated ∨ goToLower spec.mode = netModeNat ∨
      goToLower spec.mode = netModeRoute then
    if spec.addresses = [] then 0 else countPlanned spec.addresses
  else 0

/-- Observation of the forward block of a build result: none when the
build failed, some the (optional) forward block when it succeeded. -/
def forwardOf : Except BuildError NetworkDef → Option (Option NetworkForward)
  | Except.ok nd => some nd.forward
  | Except.error _ => none

/-- Observation of the ip blocks of a build result (empty on failure). -/
def okIps : Except BuildError NetworkDef → List NetworkIP
  | Except.ok nd => nd.ips
  | Except.error _ => []

/-- Errors crossing the libvirt boundary: a libvirt.Error carrying its
numeric code, or an error of any other dynamic type. -/
inductive GoErr where
  | libvirt (code : Nat) : GoErr
  | other (msg : String) : GoErr
  deriving DecidableEq

/-- The numeric value of libvirt.ERR_NO_NETWORK. -/
def errNoNetwork : Nat := 43

/-- Opaque handle to a live libvirt network object. -/
structure NetHandle where
  id : String
  deriving DecidableEq

/-- Outcome of one StateChangeConf wait: the terminal timeout, or a
refresh error surfaced by the wait. -/
inductive WaitErr where
  | timeout : WaitErr
  | refreshErr (e : GoErr) : WaitErr
  deriving DecidableEq

/-- Models the documented contract of the hashicorp helper
resource.StateChangeConf.WaitForState used at source lines 316-324 and
441-449: the refresh function is invoked repeatedly; a non-nil refresh
error aborts the wait immediately with that error; a target state
succeeds; exhausting the trace stands for reaching the deadline, the
terminal timeout. The list argument is the sequence of refresh results
one per poll up to the deadline. -/
def waitForState (target : List String) :
    List (Option NetHandle × String × Option GoErr) → Except WaitErr (Option NetHandle)
  | [] => Except.error WaitErr.timeout
  | (res, st, err) :: rest =>
    match err with
    | some e => Except.error (WaitErr.refreshErr e)
    | none => if target.contains st then Except.ok res else waitForState target rest

/-- Refresh function returned by waitForNetworkActive (source lines
456-467), applied to the result of one network.IsActive() call: an error
is returned to the wait as-is with an empty state, an active network
reports ACTIVE and an inactive one reports BUILD. -/
def waitForNetworkActiveRefresh (network : NetHandle) (isActive : Except GoErr Bool) :
    Option NetHandle × String × Option GoErr :=
  match isActive with
  | Except.error e => (none, "", some e)
  | Except.ok true => (some network, "ACTIVE", none)
  | Except.ok false => (some network, "BUILD", none)

/-- Refresh function returned by waitForNetworkDestroyed (source lines
470-480), applied to the pair returned by one LookupNetworkByUUIDString
call. The body runs err.(libvirt.Error).Code unconditionally: when err
is nil (the lookup succeeded) or is not a libvirt.Error, the type
assertion panics, modelled as none; otherwise ERR_NO_NETWORK reports
NOT-EXISTS with no error and any other code reports ACTIVE together
with the original error. -/
def waitForNetworkDestroyedRefresh (_network : Option NetHandle) (err : Option GoErr) :
    Option (Option NetHandle × String × Option GoErr) :=
  match err with
  | none => none
  | some (GoErr.other _) => none
  | some (GoErr.libvirt code) =>
    if code = errNoNetwork then some (none, "NOT-EXISTS", none)
    else some (none, "ACTIVE", some (GoErr.libvirt code))

/-- Responses the external service gives to the calls the delete path
makes, in the order the source makes them: the initial lookup, the
IsActive query, the reactivation (Create), Destroy and Undefine calls
(none is success), and the outcomes of the poll lookups, one pair per
poll up to the deadline. -/
structure DeleteResponses where
  lookup : Except GoErr NetHandle
  isActive : Except GoErr Bool
  createRes : Option GoErr
  destroyRes : Option GoErr
  undefineRes : Option GoErr
  pollLookups : List (Option NetHandle × Option GoErr)

/-- External calls the delete path performs, in order; pollWait records
the StateChangeConf parameters Delay, MinTimeout and Timeout in seconds
(source lines 441-448). -/
inductive DeleteOp where
  | lookup | isActive | create | destroy | undefine
  | pollWait (delaySec minTimeoutSec timeoutSec : Nat)
  deriving DecidableEq

/-- Failure exits of resourceLibvirtNetworkDelete, one constructor per
fmt.Errorf site, plus the abnormal abort of a refresh panic. -/
inductive DeleteErr where
  | lookupFailed (e : GoErr)
  | isActiveFailed (e : GoErr)
  | restartFailed (e : GoErr)
  | destroyFailed (e : GoErr)
  | undefineFailed (e : GoErr)
  | waitFailed (w : WaitErr)
  | panicked
  deriving DecidableEq

/-- The delete-side StateChangeConf loop: waitForState instantiated at
the waitForNetworkDestroyed refresh function, stepping through the poll
lookup results in order, with a refresh panic aborting the run. -/
def runDestroyedPoll : List (Option NetHandle × Option GoErr) → Except DeleteErr Unit
  | [] => Except.error (DeleteErr.waitFailed WaitErr.timeout)
  | (n, e) :: rest =>
    match waitForNetworkDestroyedRefresh n e with
    | none => Except.error DeleteErr.panicked
    | some (_, _, some e2) => Except.error (DeleteErr.waitFailed (WaitErr.refreshErr e2))
    | some (_, st, none) =>
      if st = "NOT-EXISTS" then Except.ok () else runDestroyedPoll rest

/-- Tail of the delete path from the Destroy call on (source lines
433-453), shared by the active and reactivated branches. -/
def deleteAfterRestart (r : DeleteResponses) (ops : List DeleteOp) :
    List DeleteOp × Except DeleteErr Unit :=
  match r.destroyRes with
  | some e => (ops ++ [DeleteOp.destroy], Except.error (DeleteErr.destroyFailed e))
  | none =>
    match r.undefineRes with
    | some e =>
      (ops ++ [DeleteOp.destroy, DeleteOp.undefine],
       Except.error (DeleteErr.undefineFailed e))
    | none =>
      (ops ++ [DeleteOp.destroy, DeleteOp.undefine, DeleteOp.pollWait 5 3 60],
       runDestroyedPoll r.pollLookups)

/-- resourceLibvirtNetworkDelete (source lines 408-454) as a function of
the responses of the external service: the external calls performed in
order, and the result. An inactive network is reactivated (Create)
before Destroy and Undefine; the poll uses Delay 5s, MinTimeout 3s and
Timeout 60s. -/
def resourceLibvirtNetworkDelete (r : DeleteResponses) :
    List DeleteOp × Except DeleteErr Unit :=
  match r.lookup with
  | Except.error e => ([DeleteOp.lookup], Except.error (DeleteErr.lookupFailed e))
  | Except.ok _ =>
    match r.isActive with
    | Except.error e =>
      ([DeleteOp.lookup, DeleteOp.isActive], Except.error (DeleteErr.isActiveFailed e))
    | Except.ok active =>
      if active then
        deleteAfterRestart r [DeleteOp.lookup, DeleteOp.isActive]
      else
        match r.createRes with
        | some e =>
          ([DeleteOp.lookup, DeleteOp.isActive, DeleteOp.create],
           Except.error (DeleteErr.restartFailed e))
        | none =>
          deleteAfterRestart r [DeleteOp.lookup, DeleteOp.isActive, DeleteOp.create]

/-- Sample resource data: an isolated network carrying 192.168.100.0/24
with dhcp left unset (schema default applies). -/
def sampleIsolatedSpec : NetworkSpec :=
  { name := "k8snet", domain := none, dnsLocalOnly := false, mode := "none",
    bridge := "", addresses := [⟨3232261120, 24, 32⟩], dhcpEnabled := none,
    dnsForwarders := [] }

/-- Sample resource data: a bridged network on host bridge br0. -/
def sampleBridgeSpec : NetworkSpec :=
  { name := "k8snet", domain := none, dnsLocalOnly := false, mode := "bridge",
    bridge := "br0", addresses := [⟨3232261120, 24, 32⟩], dhcpEnabled := none,
    dnsForwarders := [] }

/-- Sample resource data: the unrecognized mode string spanning, with
the other fields populated. -/
def sampleSpanningSpec : NetworkSpec :=
  { name := "k8snet", domain := some "k8s.local", dnsLocalOnly := true,
    mode := "spanning", bridge := "br0", addresses := [⟨3232261120, 24, 32⟩],
    dhcpEnabled := some true, dnsForwarders := [] }

/-- Sample resource data: a nat network with 192.168.100.0/24 and dhcp
explicitly disabled. -/
def sampleSpecDhcpOff : NetworkSpec :=
  { name := "k8snet", domain := none, dnsLocalOnly := false, mode := "nat",
    bridge := "", addresses := [⟨3232261120, 24, 32⟩], dhcpEnabled := some false,
    dnsForwarders := [] }

/-- The ip blocks produced for sampleSpecDhcpOff: the planned interface
address 192.168.100.1/24 with the dhcp pointer explicitly nil. -/
def sampleDefDhcpOff : NetworkDef :=
  { newNetworkDef with
    ips := [{ address := 3232261121, prefLen := 24, family := "ipv4", dhcp := none }] }

/-- Incrementing the last byte is plain addition as long as the last
byte does not overflow. -/
theorem incLastByte_eq_add_one (x : Nat) (hx : x % 256 ≤ 254) :
    incLastByte x = x + 1 := by
  have h := Nat.mod_le x 256
  unfold incLastByte
  omega

/-- Decrementing the last byte is plain subtraction as long as the last
byte does not underflow. -/
theorem decLastByte_eq_sub_one (x : Nat) (hx : x % 256 ≠ 0) :
    decLastByte x = x - 1 := by
  have h := Nat.mod_le x 256
  unfold decLastByte
  omega

/-- For the two mask widths ParseCIDR produces, the Go XOR expression
((2 XOR bits) - 2) XOR ones collapses to bits XOR ones. -/
theorem ipsRange_eq_xor (ones bits : Nat) (hb : bits = 32 ∨ bits = 128) :
    Nat.xor (Nat.xor 2 bits - 2) ones = Nat.xor bits ones := by
  rcases hb with rfl | rfl
  · have h : Nat.xor 2 32 - 2 = 32 := by decide
    rw [h]
  · have h : Nat.xor 2 128 - 2 = 128 := by decide
    rw [h]

/-- A block that passes the size check has at least one host bit: a
mask as wide as the address makes the XOR expression zero. -/
theorem accepted_ones_lt_bits (ones bits : Nat) (hb : bits = 32 ∨ bits = 128)
    (hones : ones ≤ bits)
    (hacc : ¬ Nat.xor (Nat.xor 2 bits - 2) ones < 4) : ones < bits := by
  rcases Nat.lt_or_ge ones bits with h | h
  · exact h
  · exfalso
    have he : ones = bits := le_antisymm hones h
    subst he
    rcases hb with rfl | rfl
    · exact hacc (by decide)
    · exact hacc (by decide)

/-- Masking an address a second time, after adding less than the host
range, gives the first mask back. -/
theorem maskAddr_maskAddr_add (ip ones bits j : Nat) (hj : j < 2 ^ (bits - ones)) :
    maskAddr (maskAddr ip ones bits + j) ones bits = maskAddr ip ones bits := by
  unfold maskAddr
  have hpos : 0 < 2 ^ (bits - ones) := Nat.two_pow_pos _
  rw [Nat.add_comm, Nat.add_mul_div_right _ _ hpos, Nat.div_eq_of_lt hj, Nat.zero_add]

/-- A network address with at least one host bit is even. -/
theorem maskAddr_even (ip ones bits : Nat) (h1 : ones < bits) :
    maskAddr ip ones bits % 2 = 0 := by
  obtain ⟨k, hk⟩ : ∃ k, bits - ones = k + 1 := ⟨bits - ones - 1, by omega⟩
  unfold maskAddr
  rw [hk, pow_succ, ← Nat.mul_assoc]
  exact Nat.mul_mod_left _ 2

/-- The last byte of an even address is at most 254. -/
theorem even_mod256_le (x : Nat) (hx : x % 2 = 0) : x % 256 ≤ 254 := by
  omega

/-- The broadcast address of a block with at least one host bit is odd,
so its last byte is nonzero. -/
theorem broadcast_lastByte_ne_zero (ip ones bits : Nat) (h1 : ones < bits) :
    broadcastAddr ip ones bits % 256 ≠ 0 := by
  obtain ⟨k, hk⟩ : ∃ k, bits - ones = k + 1 := ⟨bits - ones - 1, by omega⟩
  have hev : maskAddr ip ones bits % 2 = 0 := maskAddr_even ip ones bits h1
  unfold broadcastAddr
  rw [hk, pow_succ]
  have hpos : 0 < 2 ^ k := Nat.two_pow_pos k
  omega

/-- Shape of a successful planner run: the size check passed, the
returned block holds the network address with its last byte bumped, and
the range is the twice-bumped network address paired with the broadcast
address with its last byte lowered. -/
theorem setNetworkIP_ok_shape (ip ones bits : Nat) (dni : NetworkIP) (dhcp : NetworkDHCP)
    (hok : setNetworkIP ⟨ip, ones, bits⟩ = Except.ok (dni, dhcp)) :
    ¬ Nat.xor (Nat.xor 2 bits - 2) ones < 4 ∧
    dni = { address := incLastByte (maskAddr ip ones bits), prefLen := ones,
            family := if bits = 128 then "ipv6" else "ipv4", dhcp := none } ∧
    dhcp = { ranges := [(incLastByte (incLastByte (maskAddr ip ones bits)),
                         decLastByte (broadcastAddr ip ones bits))] } := by
  unfold setNetworkIP networkRange at hok
  split at hok
  · exact absurd hok (by simp)
  · rename_i hge
    simp only [Except.ok.injEq, Prod.mk.injEq] at hok
    exact ⟨hge, hok.1.symm, hok.2.symm⟩

/-- The dhcp loop stamps every produced block with a range exactly when
dhcp is enabled. -/
theorem planEntries_all_dhcp (b : Bool) (addrs : List IPNet) (l : List NetworkIP)
    (h : planEntries b addrs = Except.ok l) :
    (l.all fun e => e.dhcp.isSome == b) = true := by
  induction addrs generalizing l with
  | nil =>
    simp only [planEntries, Except.ok.injEq] at h
    subst h
    rfl
  | cons a rest ih =>
    unfold planEntries at h
    rcases hs : setNetworkIP a with e | p
    · rw [hs] at h
      exact absurd h (by simp)
    · obtain ⟨dni, dhcp⟩ := p
      rw [hs] at h
      rcases hr : planEntries b rest with e2 | l2
      · rw [hr] at h
        exact absurd h (by simp)
      · rw [hr] at h
        simp only [Except.ok.injEq] at h
        subst h
        simp only [List.all_cons, Bool.and_eq_true]
        constructor
        · cases b <;> simp
        · exact ih _ hr

/-- setDhcpByCIDRAdressesSubnets only rewrites the ip blocks; the
forward block of the definition passes through unchanged. -/
theorem setDhcp_preserves_forward (spec : NetworkSpec) (nd nd2 : NetworkDef)
    (h : setDhcpByCIDRAdressesSubnets spec nd = Except.ok nd2) :
    nd2.forward = nd.forward := by
  unfold setDhcpByCIDRAdressesSubnets at h
  split at h
  · simp only [Except.ok.injEq] at h
    subst h
    rfl
  · split at h
    · exact absurd h (by simp)
    · simp only [Except.ok.injEq] at h
      subst h
      rfl

/-- C1: the claim says setNetworkIP rejects exactly the blocks with
fewer than 4 usable addresses (2 ^ (bits - ones) - 2). The code is
wrong: for 192.168.1.0/30 the usable count is 2, yet the Go size
expression is XOR arithmetic, ((2 XOR 32) - 2) XOR 30 = 62, so the
planner accepts the block instead of failing with the range-too-small
error. -/
theorem C1_range_check_code_bug :
    specUsableAddresses 30 32 < 4 ∧
    Nat.xor (Nat.xor 2 32 - 2) 30 = 62 ∧
    (setNetworkIP ⟨3232235776, 30, 32⟩).isOk = true := by
  refine ⟨by decide, by decide, by decide⟩

/-- C2 counterexample: 192.168.1.254/31 is accepted by the planner, but
the returned DHCP range start is 192.168.1.0 (the last-byte increment
wraps without carry), not the network address plus 2 (192.168.2.0). -/
theorem C2_dhcp_start_counterexample :
    setNetworkIP ⟨3232236030, 31, 32⟩ =
      Except.ok ({ address := 3232236031, prefLen := 31, family := "ipv4", dhcp := none },
                 { ranges := [(3232235776, 3232236030)] }) ∧
    maskAddr 3232236030 31 32 + 2 = 3232236032 ∧
    (3232235776 : Nat) ≠ 3232236032 := by
  refine ⟨by decide, by decide, by decide⟩

/-- C2 (amended): for every CIDR block the planner accepts whose
network-address last byte is at most 253 (so the per-byte increments do
not wrap; every accepted block with at least two host bits qualifies),
the interface address is the network address plus 1 and the DHCP range
runs from the network address plus 2 to the broadcast address minus 1.
The 192.168.100.0/24 scenario of the claim is the witness below. -/
theorem C2_planned_addresses (ip ones bits : Nat) (dni : NetworkIP) (dhcp : NetworkDHCP)
    (hb : bits = 32 ∨ bits = 128) (hones : ones ≤ bits)
    (hnw : maskAddr ip ones bits % 256 ≤ 253)
    (hok : setNetworkIP ⟨ip, ones, bits⟩ = Except.ok (dni, dhcp)) :
    dni.address = maskAddr ip ones bits + 1 ∧
    dni.prefLen = ones ∧
    dhcp.ranges = [(maskAddr ip ones bits + 2, broadcastAddr ip ones bits - 1)] := by
  obtain ⟨hacc, hdni, hdhcp⟩ := setNetworkIP_ok_shape ip ones bits dni dhcp hok
  have hlt : ones < bits := accepted_ones_lt_bits ones bits hb hones hacc
  have hev : maskAddr ip ones bits % 2 = 0 := maskAddr_even ip ones bits hlt
  have h1 : incLastByte (maskAddr ip ones bits) = maskAddr ip ones bits + 1 :=
    incLastByte_eq_add_one _ (even_mod256_le _ hev)
  have h2 : incLastByte (maskAddr ip ones bits + 1) = maskAddr ip ones bits + 2 := by
    rw [incLastByte_eq_add_one]
    omega
  have h3 : decLastByte (broadcastAddr ip ones bits) = broadcastAddr ip ones bits - 1 :=
    decLastByte_eq_sub_one _ (broadcast_lastByte_ne_zero ip ones bits hlt)
  subst hdni
  subst hdhcp
  refine ⟨?_, rfl, ?_⟩
  · simpa using h1
  · simp [h1, h2, h3]

/-- C2 witness: the 192.168.100.0/24 scenario, interface address
192.168.100.1/24 and DHCP range 192.168.100.2 to 192.168.100.254. -/
theorem C2_planned_addresses_witness :
    ({ address := 3232261121, prefLen := 24, family := "ipv4",
       dhcp := none } : NetworkIP).address = maskAddr 3232261120 24 32 + 1 ∧
    ({ address := 3232261121, prefLen := 24, family := "ipv4",
       dhcp := none } : NetworkIP).prefLen = 24 ∧
    ({ ranges := [(3232261122, 3232261374)] } : NetworkDHCP).ranges =
      [(maskAddr 3232261120 24 32 + 2, broadcastAddr 3232261120 24 32 - 1)] :=
  C2_planned_addresses 3232261120 24 32 _ _ (Or.inl rfl) (by decide) (by decide)
    (by decide)

/-- C3 counterexample: the builder accepts the non-canonical entry
192.168.100.5/24 (ParseCIDR keeps the network 192.168.100.0/24), and the
drift reader projects the built block back to 192.168.100.0/24, so the
reported CIDR string differs from the original entry. -/
theorem C3_roundtrip_counterexample :
    setNetworkIP ⟨3232261125, 24, 32⟩ =
      Except.ok ({ address := 3232261121, prefLen := 24, family := "ipv4", dhcp := none },
                 { ranges := [(3232261122, 3232261374)] }) ∧
    readAddressEntry
        { address := 3232261121, prefLen := 24, family := "ipv4", dhcp := none } 32 =
      (3232261120, 24) ∧
    ((3232261120 : Nat), (24 : Nat)) ≠ (3232261125, 24) := by
  refine ⟨by decide, by decide, by decide⟩

/-- C3 (amended): for every entry the planner accepts, masking the
stored interface address with its own mask length recovers the network
address of the original CIDR, and the reader therefore reproduces the
original entry exactly whenever the original is canonical (its address
equals its network address). -/
theorem C3_mask_recovers_network (ip ones bits : Nat) (dni : NetworkIP) (dhcp : NetworkDHCP)
    (hb : bits = 32 ∨ bits = 128) (hones : ones ≤ bits)
    (hok : setNetworkIP ⟨ip, ones, bits⟩ = Except.ok (dni, dhcp)) :
    readAddressEntry dni bits = (maskAddr ip ones bits, ones) ∧
    (ip = maskAddr ip ones bits → readAddressEntry dni bits = (ip, ones)) := by
  obtain ⟨hacc, hdni, -⟩ := setNetworkIP_ok_shape ip ones bits dni dhcp hok
  have hlt : ones < bits := accepted_ones_lt_bits ones bits hb hones hacc
  have hev : maskAddr ip ones bits % 2 = 0 := maskAddr_even ip ones bits hlt
  have h1 : incLastByte (maskAddr ip ones bits) = maskAddr ip ones bits + 1 :=
    incLastByte_eq_add_one _ (even_mod256_le _ hev)
  have hone2 : (1 : Nat) < 2 ^ (bits - ones) :=
    Nat.one_lt_two_pow_iff.mpr (by omega)
  have hmask : maskAddr (maskAddr ip ones bits + 1) ones bits = maskAddr ip ones bits :=
    maskAddr_maskAddr_add ip ones bits 1 hone2
  have hread : readAddressEntry dni bits = (maskAddr ip ones bits, ones) := by
    subst hdni
    unfold readAddressEntry
    simp only []
    rw [h1, hmask]
  refine ⟨hread, fun hcan => ?_⟩
  rw [hread, ← hcan]

/-- C3 witness: the canonical entry 192.168.100.0/24 round-trips
exactly. -/
theorem C3_mask_recovers_network_witness :
    readAddressEntry
        { address := 3232261121, prefLen := 24, family := "ipv4", dhcp := none } 32 =
      (maskAddr 3232261120 24 32, 24) ∧
    ((3232261120 : Nat) = maskAddr 3232261120 24 32 →
      readAddressEntry
          { address := 3232261121, prefLen := 24, family := "ipv4", dhcp := none } 32 =
        (3232261120, 24)) :=
  C3_mask_recovers_network 3232261120 24 32
    ⟨3232261121, 24, "ipv4", none⟩ ⟨[(3232261122, 3232261374)]⟩
    (Or.inl rfl) (by decide) (by decide)

/-- C4 counterexample: during the create poll a single IsActive failure
is surfaced at once by the wait (the refresh function returns it and the
wait aborts), even though the very next poll would have converged; the
surfaced error is not the terminal timeout the claim promises. -/
theorem C4_poll_error_surfaced_counterexample :
    waitForState ["ACTIVE"]
      [waitForNetworkActiveRefresh ⟨"net0"⟩ (Except.error (GoErr.other "transient failure")),
       waitForNetworkActiveRefresh ⟨"net0"⟩ (Except.ok true)] =
      Except.error (WaitErr.refreshErr (GoErr.other "transient failure")) ∧
    WaitErr.refreshErr (GoErr.other "transient failure") ≠ WaitErr.timeout := by
  refine ⟨rfl, by decide⟩

/-- C4 (amended): a single unexpected external error during polling
aborts the poll and is surfaced to the caller immediately: an IsActive
failure during create is returned by the refresh function and ends the
wait with that error, and a delete-poll lookup error other than
not-found is returned alongside the ACTIVE state, equally ending the
wait with that error rather than polling on until the deadline. -/
theorem C4_poll_error_aborts (h : NetHandle) (e : GoErr) (c : Nat) (n : Option NetHandle)
    (rest rest2 : List (Option NetHandle × String × Option GoErr))
    (hc : c ≠ errNoNetwork) :
    waitForState ["ACTIVE"] (waitForNetworkActiveRefresh h (Except.error e) :: rest) =
      Except.error (WaitErr.refreshErr e) ∧
    waitForNetworkDestroyedRefresh n (some (GoErr.libvirt c)) =
      some (none, "ACTIVE", some (GoErr.libvirt c)) ∧
    waitForState ["NOT-EXISTS"] ((none, "ACTIVE", some (GoErr.libvirt c)) :: rest2) =
      Except.error (WaitErr.refreshErr (GoErr.libvirt c)) := by
    refine ⟨rfl, ?_, rfl⟩
    simp only [waitForNetworkDestroyedRefresh]
    rw [if_neg hc]

/-- C4 witness: a concrete transient error and a concrete non-not-found
lookup error code. -/
theorem C4_poll_error_aborts_witness :
    (1 : Nat) ≠ errNoNetwork ∧
    (waitForState ["ACTIVE"]
        [waitForNetworkActiveRefresh ⟨"net0"⟩ (Except.error (GoErr.other "boom"))] =
        Except.error (WaitErr.refreshErr (GoErr.other "boom")) ∧
      waitForNetworkDestroyedRefresh none (some (GoErr.libvirt 1)) =
        some (none, "ACTIVE", some (GoErr.libvirt 1)) ∧
      waitForState ["NOT-EXISTS"] [(none, "ACTIVE", some (GoErr.libvirt 1))] =
        Except.error (WaitErr.refreshErr (GoErr.libvirt 1))) :=
  ⟨by decide, C4_poll_error_aborts ⟨"net0"⟩ (GoErr.other "boom") 1 none [] [] (by decide)⟩

/-- C5: deleting a network found inactive reactivates it (Create), then
destroys, then undefines, then polls lookup-by-UUID with Delay 5s,
MinTimeout 3s and Timeout 60s until the lookup reports not-found, and
the whole delete succeeds: the inactive state is never itself an error. -/
theorem C5_delete_inactive_flow (r : DeleteResponses) (h : NetHandle)
    (n : Option NetHandle) (rest : List (Option NetHandle × Option GoErr))
    (hl : r.lookup = Except.ok h) (ha : r.isActive = Except.ok false)
    (hc : r.createRes = none) (hd : r.destroyRes = none) (hu : r.undefineRes = none)
    (hp : r.pollLookups = (n, some (GoErr.libvirt errNoNetwork)) :: rest) :
    resourceLibvirtNetworkDelete r =
      ([DeleteOp.lookup, DeleteOp.isActive, DeleteOp.create, DeleteOp.destroy,
        DeleteOp.undefine, DeleteOp.pollWait 5 3 60], Except.ok ()) := by
  simp [resourceLibvirtNetworkDelete, deleteAfterRestart, runDestroyedPoll,
    waitForNetworkDestroyedRefresh, hl, ha, hc, hd, hu, hp]

/-- C5 witness: a concrete nominal delete run on an inactive network. -/
theorem C5_delete_inactive_flow_witness :
    resourceLibvirtNetworkDelete
      { lookup := Except.ok ⟨"net0"⟩, isActive := Except.ok false, createRes := none,
        destroyRes := none, undefineRes := none,
        pollLookups := [(none, some (GoErr.libvirt errNoNetwork))] } =
      ([DeleteOp.lookup, DeleteOp.isActive, DeleteOp.create, DeleteOp.destroy,
        DeleteOp.undefine, DeleteOp.pollWait 5 3 60], Except.ok ()) :=
  C5_delete_inactive_flow _ ⟨"net0"⟩ none [] rfl rfl rfl rfl rfl rfl

/-- C6: every ip block the dhcp loop produces carries a DHCP range
exactly when dhcp is enabled (the planner always supplies a range; when
dhcp is disabled the loop overwrites it with nil rather than keeping
it), and an unset dhcp setting defaults to enabled per the schema. -/
theorem C6_dhcp_iff_enabled (spec : NetworkSpec) (nd0 nd : NetworkDef)
    (hne : spec.addresses ≠ [])
    (hok : setDhcpByCIDRAdressesSubnets spec nd0 = Except.ok nd) :
    (nd.ips.all fun e => e.dhcp.isSome == effDhcpEnabled spec) = true ∧
    (spec.dhcpEnabled = none → effDhcpEnabled spec = true) := by
  constructor
  · unfold setDhcpByCIDRAdressesSubnets at hok
    rw [if_neg hne] at hok
    rcases hpe : planEntries (effDhcpEnabled spec) spec.addresses with e | l
    · rw [hpe] at hok
      exact absurd hok (by simp)
    · rw [hpe] at hok
      simp only [Except.ok.injEq] at hok
      subst hok
      exact planEntries_all_dhcp _ _ _ hpe
  · intro hnone
    simp [effDhcpEnabled, hnone]

/-- C6 witness: dhcp explicitly disabled on 192.168.100.0/24 clears the
planned range from the produced block. -/
theorem C6_dhcp_iff_enabled_witness :
    (sampleDefDhcpOff.ips.all fun e => e.dhcp.isSome == effDhcpEnabled sampleSpecDhcpOff)
        = true ∧
    (sampleSpecDhcpOff.dhcpEnabled = none → effDhcpEnabled sampleSpecDhcpOff = true) :=
  C6_dhcp_iff_enabled sampleSpecDhcpOff newNetworkDef sampleDefDhcpOff (by decide)
    (by decide)

/-- C7: in bridge mode an empty bridge name fails the build with the
missing-bridge error; a non-empty bridge name builds a definition with
no forward block; and the bridge branch never invokes the address
planner. -/
theorem C7_bridge_mode (spec : NetworkSpec) (hmode : goToLower spec.mode = netModeBridge) :
    (spec.bridge = "" → buildNetworkDef spec = Except.error BuildError.missingBridge) ∧
    (spec.bridge ≠ "" → forwardOf (buildNetworkDef spec) = some none) ∧
    plannerCallCount spec = 0 := by
  have hne1 : ¬(goToLower spec.mode = netModeIsolated ∨ goToLower spec.mode = netModeNat ∨
      goToLower spec.mode = netModeRoute) := by
    rw [hmode]
    decide
  refine ⟨?_, ?_, ?_⟩
  · intro hb
    unfold buildNetworkDef
    rw [if_neg hne1, if_pos hmode, if_pos hb]
  · intro hb
    unfold buildNetworkDef
    rw [if_neg hne1, if_pos hmode, if_neg hb]
    rfl
  · unfold plannerCallCount
    rw [if_neg hne1]

/-- C7 witness: a bridged network on br0. -/
theorem C7_bridge_mode_witness :
    (sampleBridgeSpec.bridge = "" →
      buildNetworkDef sampleBridgeSpec = Except.error BuildError.missingBridge) ∧
    (sampleBridgeSpec.bridge ≠ "" →
      forwardOf (buildNetworkDef sampleBridgeSpec) = some none) ∧
    plannerCallCount sampleBridgeSpec = 0 :=
  C7_bridge_mode sampleBridgeSpec (by decide)

/-- C8: in isolated mode (source string none) a successful build has no
forward block, and the address planner still runs over the supplied
addresses; the witness shows such a build producing ip blocks that do
carry DHCP ranges. -/
theorem C8_isolated_mode (spec : NetworkSpec)
    (hmode : goToLower spec.mode = netModeIsolated) :
    ((buildNetworkDef spec).isOk = true → forwardOf (buildNetworkDef spec) = some none) ∧
    (spec.addresses ≠ [] → 1 ≤ plannerCallCount spec) := by
  have hd : goToLower spec.mode = netModeIsolated ∨ goToLower spec.mode = netModeNat ∨
      goToLower spec.mode = netModeRoute := Or.inl hmode
  have hpre : (preDhcpDef spec).forward = none := by
    unfold preDhcpDef
    rw [if_pos hmode]
  constructor
  · intro hok
    unfold buildNetworkDef at hok ⊢
    rw [if_pos hd] at hok ⊢
    rcases hs : setDhcpByCIDRAdressesSubnets spec (preDhcpDef spec) with e | nd5
    · rw [hs] at hok
      simp [Except.isOk, Except.toBool] at hok
    · rw [hs] at hok
      have hfwd : nd5.forward = none := (setDhcp_preserves_forward _ _ _ hs).trans hpre
      rcases hdns : spec.dnsForwarders with _ | ⟨f, fs⟩
      · simp [forwardOf, hfwd]
      · rw [hdns] at hok
        rcases hbf : buildDNSForwarders (f :: fs) with e2 | l2
        · rw [hbf] at hok
          simp [Except.isOk, Except.toBool] at hok
        · simp [forwardOf, hfwd]
  · intro hne
    unfold plannerCallCount
    rw [if_pos hd, if_neg hne]
    rcases haddr : spec.addresses with _ | ⟨a, rest⟩
    · exact absurd haddr hne
    · simp [countPlanned]

/-- C8 witness: the isolated sample network builds with no forward block
while its single planned ip block carries a DHCP range. -/
theorem C8_isolated_mode_witness :
    ((okIps (buildNetworkDef sampleIsolatedSpec)).all fun e => e.dhcp.isSome) = true ∧
    okIps (buildNetworkDef sampleIsolatedSpec) ≠ [] ∧
    (((buildNetworkDef sampleIsolatedSpec).isOk = true →
        forwardOf (buildNetworkDef sampleIsolatedSpec) = some none) ∧
      (sampleIsolatedSpec.addresses ≠ [] → 1 ≤ plannerCallCount sampleIsolatedSpec)) :=
  ⟨by decide, by decide, C8_isolated_mode sampleIsolatedSpec (by decide)⟩

/-- C9: any mode whose lowercase form is none of the four recognized
strings makes the build fail with the unsupported-mode error, for every
combination of the remaining fields, and the address planner is never
invoked on that path; the build error returns before the definition is
serialized or submitted. -/
theorem C9_unsupported_mode (spec : NetworkSpec)
    (hmode : ¬(goToLower spec.mode = netModeIsolated ∨ goToLower spec.mode = netModeNat ∨
        goToLower spec.mode = netModeRoute ∨ goToLower spec.mode = netModeBridge)) :
    buildNetworkDef spec = Except.error (BuildError.unsupportedMode (goToLower spec.mode)) ∧
    plannerCallCount spec = 0 := by
  push_neg at hmode
  obtain ⟨h1, h2, h3, h4⟩ := hmode
  constructor
  · unfold buildNetworkDef
    rw [if_neg (by tauto), if_neg h4]
  · unfold plannerCallCount
    rw [if_neg (by tauto)]

/-- C9 witness: the mode string spanning with populated other fields. -/
theorem C9_unsupported_mode_witness :
    buildNetworkDef sampleSpanningSpec =
      Except.error (BuildError.unsupportedMode (goToLower sampleSpanningSpec.mode)) ∧
    plannerCallCount sampleSpanningSpec = 0 :=
  C9_unsupported_mode sampleSpanningSpec (by decide)

/-- C10: the delete-poll refresh function casts the lookup error to
libvirt.Error before any nil check, so a successful lookup (nil error,
the network still exists) panics the refresh instead of reporting the
ACTIVE state, while any libvirt-typed lookup error keeps it
well-defined. -/
theorem C10_destroyed_refresh_cast (n : NetHandle) (m : Option NetHandle) (c : Nat) :
    waitForNetworkDestroyedRefresh (some n) none = none ∧
    waitForNetworkDestroyedRefresh m (some (GoErr.libvirt c)) ≠ none := by
  constructor
  · rfl
  · by_cases hc : c = errNoNetwork <;>
      simp [waitForNetworkDestroyedRefresh, hc]
